import Mathlib

/-!
Verification of the round-based match engine in
`counter_strike_ag2_agent/game_state.py` (with constants from `config.py`).

The Python `GameState` class is shallowly embedded: string-keyed dicts with
the fixed keys `"Terrorists"`/`"Counter-Terrorists"` and `"player"`/`"bot"`
become total maps over two-element enums, Python ints become `Int`/`Nat`,
and the two uses of the `random` module (`random.random()` and
`random.choice`) become an explicitly passed draw record `Rng`, with
`random.random()` modelled as a rational draw and `random.choice l` as
`l[i % l.length]` for the supplied index `i`.
-/

/-- Python `sub in hay` on lists of characters: `sub` occurs contiguously. -/
def hasSub (sub : List Char) : List Char → Bool
  | [] => sub.isEmpty
  | c :: t => sub.isPrefixOf (c :: t) || hasSub sub (t)

/-- Python `sub in hay` for strings. -/
def strContains (hay sub : String) : Bool :=
  hasSub sub.data hay.data

/-- Python `str.lower()` (ASCII, which covers every string the game uses). -/
def pyLower (s : String) : String :=
  ⟨s.data.map Char.toLower⟩

/-- Python `str.strip()`: drop leading and trailing whitespace. -/
def pyStrip (s : String) : String :=
  ⟨((s.data.dropWhile Char.isWhitespace).reverse.dropWhile Char.isWhitespace).reverse⟩

/-- The normalization `a.lower().strip()` performed at the top of `apply_action`. -/
def pyNorm (s : String) : String :=
  pyStrip (pyLower s)

/-- The two entries of `config.TEAMS`, in list order. -/
inductive Team where
  | Terrorists
  | CounterTerrorists
deriving DecidableEq

/-- The Python string naming a team (the `TEAMS` entries). -/
def Team.pyName : Team → String
  | .Terrorists => "Terrorists"
  | .CounterTerrorists => "Counter-Terrorists"

/-- Models `TEAMS[1 - TEAMS.index(team)]`: the opposing team. -/
def Team.other : Team → Team
  | .Terrorists => .CounterTerrorists
  | .CounterTerrorists => .Terrorists

/-- The fixed keys of each per-team dict (`"player"`, `"bot"`), in insertion order. -/
inductive Entity where
  | player
  | bot
deriving DecidableEq

/-- The Python string naming an entity. -/
def Entity.name : Entity → String
  | .player => "player"
  | .bot => "bot"

/-- A dict with exactly the keys `"player"` and `"bot"`. -/
structure EMap (α : Type) where
  player : α
  bot : α
deriving DecidableEq

/-- Dict lookup. -/
def EMap.get : EMap α → Entity → α
  | m, .player => m.player
  | m, .bot => m.bot

/-- Dict update at one key. -/
def EMap.set : EMap α → Entity → α → EMap α
  | m, .player, x => { m with player := x }
  | m, .bot, x => { m with bot := x }

/-- A dict with exactly the keys `"Terrorists"` and `"Counter-Terrorists"`. -/
structure TMap (α : Type) where
  t : α
  ct : α
deriving DecidableEq

/-- Dict lookup. -/
def TMap.get : TMap α → Team → α
  | m, .Terrorists => m.t
  | m, .CounterTerrorists => m.ct

/-- Dict update at one key. -/
def TMap.set : TMap α → Team → α → TMap α
  | m, .Terrorists, x => { m with t := x }
  | m, .CounterTerrorists, x => { m with ct := x }

/-- The `config.POSITIONS` site list. -/
def POSITIONS : List String := ["A-site", "B-site", "Mid"]

/-- The alias table lookup `config.ACTION_ALIASES.get(key, [])`. -/
def ACTION_ALIASES (key : String) : List String :=
  if key = "shoot" then
    ["shoot", "fire the cannons", "open fire", "blast", "send lead"]
  else if key = "plant bomb" then
    ["plant bomb", "bury the chest", "drop the keg", "plant the keg"]
  else if key = "defuse bomb" then
    ["defuse bomb", "encounter", "cut the fuse", "disarm the keg", "quench the fuse"]
  else if key = "move" then
    ["move", "sail", "weigh anchor", "set course"]
  else []

/-- The local `matches` closure of `apply_action`:
`any(alias in a for alias in ACTION_ALIASES.get(key, []))`. -/
def matchesKey (key : String) (a : String) : Bool :=
  (ACTION_ALIASES key).any (fun al => strContains a al)

/-- Condition of the movement branch: `"move to" in a or matches("move")`. -/
def isMove (a : String) : Bool :=
  strContains a "move to" || matchesKey "move" a

/-- Condition of the shooting branch: `"shoot" in a or matches("shoot")`. -/
def isShoot (a : String) : Bool :=
  strContains a "shoot" || matchesKey "shoot" a

/-- Pattern part of the planting branch: `"plant bomb" in a or matches("plant bomb")`. -/
def isPlant (a : String) : Bool :=
  strContains a "plant bomb" || matchesKey "plant bomb" a

/-- Pattern part of the defusing branch: `"defuse bomb" in a or matches("defuse bomb")`. -/
def isDefuse (a : String) : Bool :=
  strContains a "defuse bomb" || matchesKey "defuse bomb" a

/-- The random draws one `apply_action` call may consume: `roll` stands for
`random.random()` and `choice` indexes a `random.choice` over a nonempty
list as `l[choice % l.length]`. -/
structure Rng where
  roll : Rat
  choice : Nat
deriving DecidableEq

/-- Models `random.choice l` under the draw `i`. -/
def choiceList (l : List α) (i : Nat) (dflt : α) : α :=
  l.getD (i % l.length) dflt

/-- The state held by the Python `GameState` object. -/
structure GameState where
  round : Nat
  max_rounds : Nat
  player_health : TMap (EMap Int)
  bomb_planted : Bool
  bomb_site : Option String
  winner : Option Team
  phase : String
  round_scores : TMap Nat
  round_time : Nat
  bomb_timer : Nat
  defuse_time : Nat
  current_positions : TMap (EMap String)
  last_action_results : List String
deriving DecidableEq

/-- The state built by `GameState.__init__`. -/
def GameState.init : GameState where
  round := 1
  max_rounds := 3
  player_health := ⟨⟨100, 100⟩, ⟨100, 100⟩⟩
  bomb_planted := false
  bomb_site := none
  winner := none
  phase := "chat"
  round_scores := ⟨0, 0⟩
  round_time := 120
  bomb_timer := 40
  defuse_time := 10
  current_positions := ⟨⟨"spawn", "spawn"⟩, ⟨"spawn", "spawn"⟩⟩
  last_action_results := []

/-- Embeds `GameState.reset_round`. -/
def reset_round (s : GameState) : GameState :=
  let scores :=
    match s.winner with
    | some w => s.round_scores.set w (s.round_scores.get w + 1)
    | none => s.round_scores
  { s with
    round_scores := scores
    player_health := ⟨⟨100, 100⟩, ⟨100, 100⟩⟩
    current_positions := ⟨⟨"spawn", "spawn"⟩, ⟨"spawn", "spawn"⟩⟩
    bomb_planted := false
    bomb_site := none
    winner := none
    phase := "chat"
    round := s.round + 1
    last_action_results := [] }

/-- The check `all(hp <= 0 for hp in self.player_health[team].values())`. -/
def allDead (s : GameState) (team : Team) : Bool :=
  decide ((s.player_health.get team).get .player ≤ 0) &&
    decide ((s.player_health.get team).get .bot ≤ 0)

/-- Embeds `GameState.is_round_over`, returning the bool together with the state
after the method's assignment to `self.winner` (the teams are scanned in
`TEAMS` order, so a fully dead Terrorist side is checked first). -/
def is_round_over (s : GameState) : Bool × GameState :=
  if allDead s .Terrorists then
    (true, { s with winner := some Team.CounterTerrorists })
  else if allDead s .CounterTerrorists then
    (true, { s with winner := some Team.Terrorists })
  else if s.winner.isSome then
    (true, s)
  else
    (false, s)

/-- Embeds `GameState.is_game_over`. -/
def is_game_over (s : GameState) : Bool :=
  decide (s.max_rounds < s.round) ||
    decide (s.max_rounds / 2 + 1 ≤ max (s.round_scores.get .Terrorists) (s.round_scores.get .CounterTerrorists))

/-- Target extraction in the shooting branch: scan the opposing dict's keys
(`"player"` then `"bot"`) for one occurring in the normalized text. -/
def extractTarget (a : String) : Option Entity :=
  if strContains a "player" then some .player
  else if strContains a "bot" then some .bot
  else none

/-- The alive-target list `[t for t, hp in self.player_health[target_team].items() if hp > 0]`. -/
def aliveOpponents (s : GameState) (target_team : Team) : List Entity :=
  [Entity.player, Entity.bot].filter (fun t0 => 0 < (s.player_health.get target_team).get t0)

/-- Site extraction shared by the move and plant branches: the first entry of
`POSITIONS` whose lowercase form occurs in the normalized text. -/
def findSite (a : String) : Option String :=
  POSITIONS.find? (fun pos => strContains a (pyLower pos))

/-- Site chosen by the plant branch: the explicitly named site when the text
holds one, otherwise `random.choice(POSITIONS)` under the supplied draw. -/
def plantSite (a : String) (rng : Rng) : String :=
  match findSite a with
  | some site => site
  | none => choiceList POSITIONS rng.choice "A-site"

/-- Tail of the shooting branch once a target is fixed: the dead-target
check, the 70% hit roll, the 30 damage with clamping at 0, and the
kill/hit/miss result text. -/
def shootAt (s : GameState) (team : Team) (entity target : Entity) (rng : Rng) : String × GameState :=
  let target_team := team.other
  if (s.player_health.get target_team).get target ≤ 0 then
    let result := entity.name ++ " cannot shoot " ++ target.name ++ " - already dead!"
    (result, { s with last_action_results := s.last_action_results ++ [result] })
  else if mkRat 3 10 < rng.roll then
    let damage : Int := 30
    let hp1 := (s.player_health.get target_team).get target - damage
    let hp2 := if hp1 < 0 then 0 else hp1
    let result :=
      if hp2 ≤ 0 then
        entity.name ++ " killed " ++ target.name ++ "! (0 HP)"
      else
        entity.name ++ " hit " ++ target.name ++ " for " ++ toString damage ++
          " damage! (" ++ toString hp2 ++ " HP left)"
    (result,
      { s with
        player_health := s.player_health.set target_team ((s.player_health.get target_team).set target hp2)
        last_action_results := s.last_action_results ++ [result] })
  else
    let result := entity.name ++ " missed " ++ target.name ++ "."
    (result, { s with last_action_results := s.last_action_results ++ [result] })

/-- Embeds `GameState.apply_action`. -/
def apply_action (s : GameState) (team : Team) (entity : Entity) (action : String) (rng : Rng) : String × GameState :=
  if (s.player_health.get team).get entity ≤ 0 then
    let result := entity.name ++ " is dead and cannot act."
    (result, { s with last_action_results := s.last_action_results ++ [result] })
  else
    let a := pyNorm action
    if isMove a then
      let position := (findSite a).getD "unknown"
      let result := entity.name ++ " moved to " ++ position ++ "."
      (result,
        { s with
          current_positions := s.current_positions.set team ((s.current_positions.get team).set entity position)
          last_action_results := s.last_action_results ++ [result] })
    else if isShoot a then
      let target_team := team.other
      match extractTarget a with
      | some target => shootAt s team entity target rng
      | none =>
        let aliveTargets := aliveOpponents s target_team
        if aliveTargets.isEmpty then
          let result := entity.name ++ " has no targets to shoot!"
          (result, { s with last_action_results := s.last_action_results ++ [result] })
        else
          shootAt s team entity (choiceList aliveTargets rng.choice .player) rng
    else if isPlant a && (team == Team.Terrorists) then
      if s.bomb_planted then
        let result := entity.name ++ ": Bomb is already planted!"
        (result, { s with last_action_results := s.last_action_results ++ [result] })
      else
        let site := plantSite a rng
        let result := entity.name ++ " planted bomb at " ++ site ++ "!"
        (result,
          { s with
            bomb_planted := true
            bomb_site := some site
            last_action_results := s.last_action_results ++ [result] })
    else if isDefuse a && (team == Team.CounterTerrorists) then
      if !s.bomb_planted then
        let result := entity.name ++ ": No bomb to defuse!"
        (result, { s with last_action_results := s.last_action_results ++ [result] })
      else if mkRat 1 5 < rng.roll then
        let result := entity.name ++ " successfully defused the bomb! CT wins!"
        (result,
          { s with
            bomb_planted := false
            winner := some Team.CounterTerrorists
            last_action_results := s.last_action_results ++ [result] })
      else
        let result := entity.name ++ " failed to defuse the bomb in time!"
        (result, { s with last_action_results := s.last_action_results ++ [result] })
    else
      let result := "Invalid action: " ++ action
      (result, { s with last_action_results := s.last_action_results ++ [result] })

/-- One externally drivable operation on the state. -/
inductive Op where
  | act (team : Team) (entity : Entity) (action : String) (rng : Rng)
  | reset
  | check

/-- Execute one operation (dropping returned values, keeping state). -/
def step (s : GameState) : Op → GameState
  | .act t e a r => (apply_action s t e a r).2
  | .reset => reset_round s
  | .check => (is_round_over s).2

/-- The state reached from `GameState.__init__` by a sequence of calls. -/
def run (ops : List Op) : GameState :=
  ops.foldl step GameState.init

/-! ### Basic lemmas about the two-key maps -/

theorem TMap_get_set (m : TMap α) (t t' : Team) (x : α) :
    (m.set t x).get t' = if t' = t then x else m.get t' := by
  cases t <;> cases t' <;> simp [TMap.get, TMap.set]

theorem EMap_get_set (m : EMap α) (e e' : Entity) (x : α) :
    (m.set e x).get e' = if e' = e then x else m.get e' := by
  cases e <;> cases e' <;> simp [EMap.get, EMap.set]

/-! ### Every branch of `apply_action` appends its result -/

theorem shootAt_last (s : GameState) (team : Team) (entity target : Entity) (rng : Rng) :
    ((shootAt s team entity target rng).2).last_action_results
      = s.last_action_results ++ [(shootAt s team entity target rng).1] := by
  unfold shootAt
  dsimp only
  split
  · rfl
  · split <;> rfl

/-- C9: Every call to `apply_action`, on every input and along every branch —
the dead-actor rejection, the no-targets case and the invalid-action fallback
included — appends exactly one string to `last_action_results`, and the
returned string is that newly appended last element. -/
theorem claims_C9 (s : GameState) (team : Team) (entity : Entity) (action : String) (rng : Rng) :
    ((apply_action s team entity action rng).2).last_action_results
      = s.last_action_results ++ [(apply_action s team entity action rng).1] := by
  unfold apply_action
  dsimp only
  split
  · rfl
  · split
    · rfl
    · split
      · split
        · exact shootAt_last ..
        · split
          · rfl
          · exact shootAt_last ..
      · split
        · split <;> rfl
        · split
          · split
            · rfl
            · split <;> rfl
          · rfl

/-! ### The match-over predicate -/

/-- C7: The match is over exactly when a team's round-win count exceeds half
of `max_rounds` or the round number exceeds `max_rounds`; in particular with
`max_rounds = 3`, `is_game_over` is true as soon as a team's score reaches 2. -/
theorem claims_C7 (s : GameState) :
    (is_game_over s = true ↔
      (s.max_rounds < s.round ∨
        s.max_rounds < 2 * max (s.round_scores.get .Terrorists) (s.round_scores.get .CounterTerrorists))) ∧
    (s.max_rounds = 3 →
      (2 ≤ s.round_scores.get .Terrorists ∨ 2 ≤ s.round_scores.get .CounterTerrorists) →
      is_game_over s = true) := by
  unfold is_game_over
  rcases Nat.le_total (s.round_scores.get .Terrorists) (s.round_scores.get .CounterTerrorists) with h | h
  · rw [Nat.max_eq_right h]
    constructor
    · simp only [Bool.or_eq_true, decide_eq_true_eq]
      omega
    · intro h3 h2
      simp only [Bool.or_eq_true, decide_eq_true_eq]
      omega
  · rw [Nat.max_eq_left h]
    constructor
    · simp only [Bool.or_eq_true, decide_eq_true_eq]
      omega
    · intro h3 h2
      simp only [Bool.or_eq_true, decide_eq_true_eq]
      omega

/-- Witness for C7 at a concrete state: `max_rounds = 3`, Terrorist score 2,
round 1, so the match is over. -/
theorem claims_C7_witness :
    is_game_over { GameState.init with round_scores := ⟨2, 0⟩ } = true :=
  (claims_C7 { GameState.init with round_scores := ⟨2, 0⟩ }).2 rfl (Or.inl (by decide))

def healthOK (s : GameState) : Prop :=
  ∀ t e, 0 ≤ (s.player_health.get t).get e ∧ (s.player_health.get t).get e ≤ 100

theorem healthOK_init : healthOK GameState.init := by
  intro t e
  cases t <;> cases e <;> exact ⟨by decide, by decide⟩

theorem shootAt_healthOK (s : GameState) (team : Team) (entity target : Entity) (rng : Rng)
    (h : healthOK s) : healthOK (shootAt s team entity target rng).2 := by
  unfold shootAt
  dsimp only
  split
  · exact h
  · split
    · intro t e
      have hbase := h t e
      have htgt := h team.other target
      dsimp only
      rw [TMap_get_set]
      by_cases ht : t = team.other
      · rw [if_pos ht, EMap_get_set]
        by_cases he : e = target
        · rw [if_pos he]
          split <;> omega
        · rw [if_neg he]
          exact ht ▸ hbase
      · rw [if_neg ht]
        exact hbase
    · exact h

theorem apply_action_healthOK (s : GameState) (team : Team) (entity : Entity) (action : String)
    (rng : Rng) (h : healthOK s) : healthOK (apply_action s team entity action rng).2 := by
  unfold apply_action
  dsimp only
  split
  · exact h
  · split
    · exact h
    · split
      · split
        · exact shootAt_healthOK _ _ _ _ _ h
        · split
          · exact h
          · exact shootAt_healthOK _ _ _ _ _ h
      · split
        · split <;> exact h
        · split
          · split
            · exact h
            · split <;> exact h
          · exact h

theorem reset_round_healthOK (s : GameState) : healthOK (reset_round s) := by
  intro t e
  cases t <;> cases e <;>
    exact ⟨(by decide : (0 : Int) ≤ 100), (by decide : (100 : Int) ≤ 100)⟩

theorem is_round_over_healthOK (s : GameState) (h : healthOK s) :
    healthOK (is_round_over s).2 := by
  unfold is_round_over
  split
  · exact h
  · split
    · exact h
    · split
      · exact h
      · exact h

theorem step_healthOK (s : GameState) (op : Op) (h : healthOK s) : healthOK (step s op) := by
  cases op with
  | act t e a r => exact apply_action_healthOK _ _ _ _ _ h
  | reset => exact reset_round_healthOK _
  | check => exact is_round_over_healthOK _ h

theorem foldl_healthOK (ops : List Op) : ∀ s : GameState, healthOK s → healthOK (ops.foldl step s) := by
  induction ops with
  | nil => exact fun s h => h
  | cons op rest ih => exact fun s h => ih _ (step_healthOK s op h)

/-- C1: For every sequence of `apply_action`, `reset_round` (and
`is_round_over`) calls starting from the initial `GameState`, every health
entry `player_health[team][entity]` stays in the interval `[0, 100]`. -/
theorem claims_C1 (ops : List Op) (t : Team) (e : Entity) :
    0 ≤ ((run ops).player_health.get t).get e ∧ ((run ops).player_health.get t).get e ≤ 100 :=
  foldl_healthOK ops GameState.init healthOK_init t e

/-! ### Dead actors and invalid actions: the results list is still appended -/

/-- A state reachable by shooting: the Terrorist `player` slot at 0 health. -/
def deadState : GameState :=
  { GameState.init with player_health := ⟨⟨0, 100⟩, ⟨100, 100⟩⟩ }

/-- C2 counterexample: with the Terrorist `player` dead, `apply_action`
returns the dead-actor result but does NOT leave the state unchanged — the
result string is appended to `last_action_results`. -/
theorem claims_C2_cex :
    ((deadState.player_health.get Team.Terrorists).get Entity.player ≤ 0) ∧
    (apply_action deadState Team.Terrorists Entity.player "shoot" ⟨mkRat 9 10, 0⟩).1
      = "player is dead and cannot act." ∧
    (apply_action deadState Team.Terrorists Entity.player "shoot" ⟨mkRat 9 10, 0⟩).2 ≠ deadState := by
  decide

/-- C2 (amended): if the actor's health is ≤ 0, `apply_action` returns the
dead-actor result and leaves every field of `GameState` unchanged except
`last_action_results`, to which exactly that result is appended. -/
theorem claims_C2_amended (s : GameState) (team : Team) (entity : Entity) (action : String)
    (rng : Rng) (h : (s.player_health.get team).get entity ≤ 0) :
    apply_action s team entity action rng =
      (entity.name ++ " is dead and cannot act.",
       { s with last_action_results := s.last_action_results ++ [entity.name ++ " is dead and cannot act."] }) := by
  unfold apply_action
  rw [if_pos h]

/-- Witness for C2 (amended) at the concrete dead state. -/
theorem claims_C2_witness :
    apply_action deadState Team.Terrorists Entity.player "shoot" ⟨mkRat 9 10, 0⟩ =
      (Entity.player.name ++ " is dead and cannot act.",
       { deadState with
         last_action_results := deadState.last_action_results ++ [Entity.player.name ++ " is dead and cannot act."] }) :=
  claims_C2_amended deadState Team.Terrorists Entity.player "shoot" ⟨mkRat 9 10, 0⟩ (by decide)

/-- C4 counterexample: an alive actor submitting text matching no action form
still mutates the state — the invalid-action result is appended to
`last_action_results`, so the state after is not equal to the state before. -/
theorem claims_C4_cex :
    (0 < (GameState.init.player_health.get Team.Terrorists).get Entity.player) ∧
    isMove (pyNorm "hello") = false ∧ isShoot (pyNorm "hello") = false ∧
    isPlant (pyNorm "hello") = false ∧ isDefuse (pyNorm "hello") = false ∧
    (apply_action GameState.init Team.Terrorists Entity.player "hello" ⟨mkRat 9 10, 0⟩).1
      = "Invalid action: hello" ∧
    (apply_action GameState.init Team.Terrorists Entity.player "hello" ⟨mkRat 9 10, 0⟩).2 ≠ GameState.init := by
  decide

/-- C4 (amended): for an alive actor and an action string matching no known
action form, `apply_action` returns the invalid-action result and leaves
every field unchanged except `last_action_results`, to which exactly that
result is appended. -/
theorem claims_C4_amended (s : GameState) (team : Team) (entity : Entity) (action : String)
    (rng : Rng) (halive : 0 < (s.player_health.get team).get entity)
    (hm : isMove (pyNorm action) = false) (hs : isShoot (pyNorm action) = false)
    (hp : isPlant (pyNorm action) = false) (hd : isDefuse (pyNorm action) = false) :
    apply_action s team entity action rng =
      ("Invalid action: " ++ action,
       { s with last_action_results := s.last_action_results ++ ["Invalid action: " ++ action] }) := by
  unfold apply_action
  rw [if_neg (by omega)]
  dsimp only
  simp [hm, hs, hp, hd]

/-- Witness for C4 (amended) at a concrete unparsable action. -/
theorem claims_C4_witness :
    apply_action GameState.init Team.Terrorists Entity.player "hold position" ⟨mkRat 9 10, 0⟩ =
      ("Invalid action: " ++ "hold position",
       { GameState.init with
         last_action_results := GameState.init.last_action_results ++ ["Invalid action: " ++ "hold position"] }) :=
  claims_C4_amended GameState.init Team.Terrorists Entity.player "hold position" ⟨mkRat 9 10, 0⟩
    (by decide) (by decide) (by decide) (by decide) (by decide)

/-! ### The defuse action -/

/-- C5: for an alive actor submitting text that parses as a defuse action,
`apply_action` clears `bomb_planted` and sets `winner` to Counter-Terrorists
exactly when the caller's team is Counter-Terrorists, the bomb is planted and
the injected Bernoulli draw (success probability `0.8`, i.e. `roll > 1/5`)
succeeds; a failed draw changes only the result bookkeeping; an unplanted
bomb yields the no-bomb result and changes nothing else; a Terrorist caller
falls through to the invalid-action result. -/
theorem claims_C5 (s : GameState) (team : Team) (entity : Entity) (action : String) (rng : Rng)
    (halive : 0 < (s.player_health.get team).get entity)
    (hd : isDefuse (pyNorm action) = true)
    (hm : isMove (pyNorm action) = false) (hs : isShoot (pyNorm action) = false)
    (hp : isPlant (pyNorm action) = false) :
    (team = Team.CounterTerrorists → s.bomb_planted = true → mkRat 1 5 < rng.roll →
      apply_action s team entity action rng =
        (entity.name ++ " successfully defused the bomb! CT wins!",
         { s with
           bomb_planted := false
           winner := some Team.CounterTerrorists
           last_action_results := s.last_action_results ++ [entity.name ++ " successfully defused the bomb! CT wins!"] })) ∧
    (team = Team.CounterTerrorists → s.bomb_planted = true → ¬ (mkRat 1 5 < rng.roll) →
      apply_action s team entity action rng =
        (entity.name ++ " failed to defuse the bomb in time!",
         { s with last_action_results := s.last_action_results ++ [entity.name ++ " failed to defuse the bomb in time!"] })) ∧
    (team = Team.CounterTerrorists → s.bomb_planted = false →
      apply_action s team entity action rng =
        (entity.name ++ ": No bomb to defuse!",
         { s with last_action_results := s.last_action_results ++ [entity.name ++ ": No bomb to defuse!"] })) ∧
    (team = Team.Terrorists →
      apply_action s team entity action rng =
        ("Invalid action: " ++ action,
         { s with last_action_results := s.last_action_results ++ ["Invalid action: " ++ action] })) := by
  refine ⟨?_, ?_, ?_, ?_⟩
  · intro hteam hplanted hroll
    subst hteam
    unfold apply_action
    rw [if_neg (by omega)]
    dsimp only
    simp [hm, hs, hp, hd, hplanted, hroll]
  · intro hteam hplanted hroll
    subst hteam
    unfold apply_action
    rw [if_neg (by omega)]
    dsimp only
    simp [hm, hs, hp, hd, hplanted, hroll]
  · intro hteam hplanted
    subst hteam
    unfold apply_action
    rw [if_neg (by omega)]
    dsimp only
    simp [hm, hs, hp, hd, hplanted]
  · intro hteam
    subst hteam
    unfold apply_action
    rw [if_neg (by omega)]
    dsimp only
    simp [hm, hs, hp, hd]

/-- A reachable state with the bomb planted at A-site, for the C5 witness. -/
def plantedState : GameState :=
  { GameState.init with bomb_planted := true, bomb_site := some "A-site" }

/-- Witness for C5 at a concrete successful defuse. -/
theorem claims_C5_witness :
    apply_action plantedState Team.CounterTerrorists Entity.player "defuse bomb" ⟨mkRat 9 10, 0⟩ =
      (Entity.player.name ++ " successfully defused the bomb! CT wins!",
       { plantedState with
         bomb_planted := false
         winner := some Team.CounterTerrorists
         last_action_results :=
           plantedState.last_action_results ++ [Entity.player.name ++ " successfully defused the bomb! CT wins!"] }) :=
  (claims_C5 plantedState Team.CounterTerrorists Entity.player "defuse bomb" ⟨mkRat 9 10, 0⟩
    (by decide) (by decide) (by decide) (by decide) (by decide)).1 rfl rfl (by decide)

/-! ### The plant action -/

theorem shootAt_objective_frame (s : GameState) (team : Team) (entity target : Entity) (rng : Rng) :
    ((shootAt s team entity target rng).2).bomb_planted = s.bomb_planted ∧
    ((shootAt s team entity target rng).2).bomb_site = s.bomb_site ∧
    ((shootAt s team entity target rng).2).winner = s.winner := by
  unfold shootAt
  dsimp only
  split
  · exact ⟨rfl, rfl, rfl⟩
  · split <;> exact ⟨rfl, rfl, rfl⟩

theorem plantSite_mem (a : String) (rng : Rng) : plantSite a rng ∈ POSITIONS := by
  unfold plantSite
  split
  · next site hfind => exact List.mem_of_find?_eq_some hfind
  · unfold choiceList
    have h3 : rng.choice % POSITIONS.length < POSITIONS.length :=
      Nat.mod_lt _ (by simp [POSITIONS])
    rw [List.getD_eq_getElem _ _ h3]
    exact List.getElem_mem h3

theorem plantSite_of_findSite (a : String) (rng : Rng) (p : String)
    (h : findSite a = some p) : plantSite a rng = p := by
  simp [plantSite, h]

/-- C6: for an alive Terrorist submitting text that parses as a plant action,
`apply_action` with the bomb already planted returns the already-planted
result and changes nothing but the results list; with the bomb unplanted it
sets `bomb_planted := true` and `bomb_site` to the explicitly named site when
the text holds one, else to the site drawn by `random.choice` from
`POSITIONS` (so always a member of the site set). Moreover `bomb_planted`
flips from `false` to `true` only through such a valid plant action. -/
theorem claims_C6 (s : GameState) (team : Team) (entity : Entity) (action : String) (rng : Rng) :
    (0 < (s.player_health.get team).get entity →
     isPlant (pyNorm action) = true →
     isMove (pyNorm action) = false → isShoot (pyNorm action) = false →
     team = Team.Terrorists →
      ((s.bomb_planted = true →
         apply_action s team entity action rng =
           (entity.name ++ ": Bomb is already planted!",
            { s with last_action_results := s.last_action_results ++ [entity.name ++ ": Bomb is already planted!"] })) ∧
       (s.bomb_planted = false →
         apply_action s team entity action rng =
           (entity.name ++ " planted bomb at " ++ plantSite (pyNorm action) rng ++ "!",
            { s with
              bomb_planted := true
              bomb_site := some (plantSite (pyNorm action) rng)
              last_action_results :=
                s.last_action_results ++ [entity.name ++ " planted bomb at " ++ plantSite (pyNorm action) rng ++ "!"] }) ∧
         plantSite (pyNorm action) rng ∈ POSITIONS ∧
         (∀ p, findSite (pyNorm action) = some p → plantSite (pyNorm action) rng = p)))) ∧
    (s.bomb_planted = false →
     ((apply_action s team entity action rng).2).bomb_planted = true →
      team = Team.Terrorists ∧ 0 < (s.player_health.get team).get entity ∧
      isPlant (pyNorm action) = true ∧ isMove (pyNorm action) = false ∧ isShoot (pyNorm action) = false) := by
  constructor
  · intro halive hpl hm hs hteam
    subst hteam
    constructor
    · intro hb
      unfold apply_action
      rw [if_neg (by omega)]
      dsimp only
      simp [hm, hs, hpl, hb]
    · intro hb
      refine ⟨?_, plantSite_mem _ _, fun p hp => plantSite_of_findSite _ _ p hp⟩
      unfold apply_action
      rw [if_neg (by omega)]
      dsimp only
      simp [hm, hs, hpl, hb]
  · intro h0 h1
    by_cases hdead : (s.player_health.get team).get entity ≤ 0
    · rw [apply_action, if_pos hdead] at h1
      simp [h0] at h1
    · rw [apply_action, if_neg hdead] at h1
      dsimp only at h1
      split at h1
      · simp [h0] at h1
      · rename_i hmv
        split at h1
        · split at h1
          · rw [(shootAt_objective_frame ..).1] at h1
            exact absurd h1 (by simp [h0])
          · split at h1
            · simp [h0] at h1
            · rw [(shootAt_objective_frame ..).1] at h1
              exact absurd h1 (by simp [h0])
        · rename_i hsh
          split at h1
          · rename_i hcond
            rw [Bool.and_eq_true, beq_iff_eq] at hcond
            exact ⟨hcond.2, by omega, hcond.1, Bool.eq_false_iff.mpr hmv, Bool.eq_false_iff.mpr hsh⟩
          · split at h1
            · split at h1
              · simp [h0] at h1
              · split at h1
                · simp at h1
                · simp [h0] at h1
            · simp [h0] at h1

/-- Witness for C6: a fresh plant with no explicit site, drawn site `B-site`. -/
theorem claims_C6_witness :
    apply_action GameState.init Team.Terrorists Entity.player "plant bomb" ⟨mkRat 9 10, 1⟩ =
      (Entity.player.name ++ " planted bomb at " ++ plantSite (pyNorm "plant bomb") ⟨mkRat 9 10, 1⟩ ++ "!",
       { GameState.init with
         bomb_planted := true
         bomb_site := some (plantSite (pyNorm "plant bomb") ⟨mkRat 9 10, 1⟩)
         last_action_results :=
           GameState.init.last_action_results ++
             [Entity.player.name ++ " planted bomb at " ++ plantSite (pyNorm "plant bomb") ⟨mkRat 9 10, 1⟩ ++ "!"] }) :=
  (((claims_C6 GameState.init Team.Terrorists Entity.player "plant bomb" ⟨mkRat 9 10, 1⟩).1
    (by decide) (by decide) (by decide) (by decide) rfl).2 rfl).1

/-! ### Shooting a 20-health defender -/

/-- C8: for an alive attacker whose shoot text names a defender whose health
is 20, a successful hit draw leaves the defender at exactly 0 health (never
negative) and reports a kill — fixed damage 30, clamped at 0, with kill vs
hit classified from the resulting health. -/
theorem claims_C8 (s : GameState) (team : Team) (entity tgt : Entity) (action : String) (rng : Rng)
    (halive : 0 < (s.player_health.get team).get entity)
    (hm : isMove (pyNorm action) = false) (hs : isShoot (pyNorm action) = true)
    (htgt : extractTarget (pyNorm action) = some tgt)
    (hhp : (s.player_health.get team.other).get tgt = 20)
    (hroll : mkRat 3 10 < rng.roll) :
    ((((apply_action s team entity action rng).2).player_health.get team.other).get tgt = 0) ∧
    (apply_action s team entity action rng).1 = entity.name ++ " killed " ++ tgt.name ++ "! (0 HP)" := by
  have happ : apply_action s team entity action rng = shootAt s team entity tgt rng := by
    unfold apply_action
    rw [if_neg (by omega)]
    dsimp only
    simp [hm, hs, htgt]
  rw [happ]
  unfold shootAt
  rw [if_neg (by omega), if_pos hroll]
  dsimp only
  rw [hhp]
  norm_num
  rw [TMap_get_set, if_pos rfl, EMap_get_set, if_pos rfl]

/-- A state with the Counter-Terrorist `player` at 20 health, for the C8 witness. -/
def lowHpState : GameState :=
  { GameState.init with player_health := ⟨⟨100, 100⟩, ⟨20, 100⟩⟩ }

/-- Witness for C8: shooting the named 20-health defender with a hit draw. -/
theorem claims_C8_witness :
    ((((apply_action lowHpState Team.Terrorists Entity.player "shoot player" ⟨mkRat 9 10, 0⟩).2).player_health.get
        Team.Terrorists.other).get Entity.player = 0) ∧
    (apply_action lowHpState Team.Terrorists Entity.player "shoot player" ⟨mkRat 9 10, 0⟩).1
      = Entity.player.name ++ " killed " ++ Entity.player.name ++ "! (0 HP)" :=
  claims_C8 lowHpState Team.Terrorists Entity.player Entity.player "shoot player" ⟨mkRat 9 10, 0⟩
    (by decide) (by decide) (by decide) (by decide) (by decide) (by decide)

/-! ### Team-mismatched objective actions fall through to Invalid -/

/-- C10: a plant action submitted by a Counter-Terrorist, and a defuse action
submitted by a Terrorist, are not recognized as objective actions: for an
alive actor the call falls through to the invalid-action result, leaving
every field — `bomb_planted`, `bomb_site`, `winner` and all health entries
included — unchanged except the appended results list. -/
theorem claims_C10 (s : GameState) (team : Team) (entity : Entity) (action : String) (rng : Rng)
    (halive : 0 < (s.player_health.get team).get entity) :
    (isPlant (pyNorm action) = true → isMove (pyNorm action) = false →
     isShoot (pyNorm action) = false → isDefuse (pyNorm action) = false →
     team = Team.CounterTerrorists →
      apply_action s team entity action rng =
        ("Invalid action: " ++ action,
         { s with last_action_results := s.last_action_results ++ ["Invalid action: " ++ action] })) ∧
    (isDefuse (pyNorm action) = true → isMove (pyNorm action) = false →
     isShoot (pyNorm action) = false → isPlant (pyNorm action) = false →
     team = Team.Terrorists →
      apply_action s team entity action rng =
        ("Invalid action: " ++ action,
         { s with last_action_results := s.last_action_results ++ ["Invalid action: " ++ action] })) := by
  constructor
  · intro hpl hm hs hd hteam
    subst hteam
    unfold apply_action
    rw [if_neg (by omega)]
    dsimp only
    simp [hm, hs, hd]
  · intro hd hm hs hpl hteam
    subst hteam
    unfold apply_action
    rw [if_neg (by omega)]
    dsimp only
    simp [hm, hs, hpl]

/-- Witness for C10: a Counter-Terrorist submitting `plant bomb` gets the
invalid-action result. -/
theorem claims_C10_witness :
    apply_action GameState.init Team.CounterTerrorists Entity.player "plant bomb" ⟨mkRat 9 10, 0⟩ =
      ("Invalid action: " ++ "plant bomb",
       { GameState.init with
         last_action_results := GameState.init.last_action_results ++ ["Invalid action: " ++ "plant bomb"] }) :=
  (claims_C10 GameState.init Team.CounterTerrorists Entity.player "plant bomb" ⟨mkRat 9 10, 0⟩
    (by decide)).1 (by decide) (by decide) (by decide) (by decide) rfl

/-! ### How the round winner can change -/

theorem apply_action_winner (s : GameState) (team : Team) (entity : Entity) (action : String) (rng : Rng) :
    ((apply_action s team entity action rng).2).winner = s.winner ∨
    (((apply_action s team entity action rng).2).winner = some Team.CounterTerrorists ∧
     team = Team.CounterTerrorists ∧ 0 < (s.player_health.get team).get entity) := by
  unfold apply_action
  dsimp only
  split
  · left; rfl
  · rename_i hdead
    split
    · left; rfl
    · split
      · split
        · exact Or.inl (shootAt_objective_frame ..).2.2
        · split
          · left; rfl
          · exact Or.inl (shootAt_objective_frame ..).2.2
      · split
        · split
          · left; rfl
          · left; rfl
        · split
          · rename_i hcond
            split
            · left; rfl
            · split
              · refine Or.inr ⟨rfl, ?_, by omega⟩
                rw [Bool.and_eq_true, beq_iff_eq] at hcond
                exact hcond.2
              · left; rfl
          · left; rfl

theorem shootAt_allDead (s : GameState) (team : Team) (entity target : Entity) (rng : Rng)
    (tm : Team) (h : allDead s tm = true) : allDead (shootAt s team entity target rng).2 tm = true := by
  unfold shootAt
  dsimp only
  split
  · exact h
  · rename_i hpos
    split
    · by_cases hteq : team.other = tm
      · exfalso
        rw [allDead, Bool.and_eq_true, decide_eq_true_eq, decide_eq_true_eq] at h
        cases target
        · exact hpos (by rw [hteq]; exact h.1)
        · exact hpos (by rw [hteq]; exact h.2)
      · rw [allDead, Bool.and_eq_true, decide_eq_true_eq, decide_eq_true_eq] at h ⊢
        dsimp only
        rw [TMap_get_set, if_neg (fun hx => hteq hx.symm)]
        exact h
    · exact h

theorem apply_action_allDead (s : GameState) (team : Team) (entity : Entity) (action : String)
    (rng : Rng) (tm : Team) (h : allDead s tm = true) :
    allDead (apply_action s team entity action rng).2 tm = true := by
  unfold apply_action
  dsimp only
  split
  · exact h
  · split
    · exact h
    · split
      · split
        · exact shootAt_allDead _ _ _ _ _ _ h
        · split
          · exact h
          · exact shootAt_allDead _ _ _ _ _ _ h
      · split
        · split
          · exact h
          · exact h
        · split
          · split
            · exact h
            · split
              · exact h
              · exact h
          · exact h

/-- An invariant of every reachable state: the winner can only be the
Terrorists when the whole Counter-Terrorist side is dead (that is the one
place the code assigns `winner = "Terrorists"`, and health never rises
within a round). -/
def winnerInv (s : GameState) : Prop :=
  s.winner = some Team.Terrorists → allDead s Team.CounterTerrorists = true

theorem is_round_over_allDead (s : GameState) (tm : Team) :
    allDead (is_round_over s).2 tm = allDead s tm := by
  unfold is_round_over
  split
  · rfl
  · split
    · rfl
    · split
      · rfl
      · rfl

theorem step_winnerInv (s : GameState) (op : Op) (h : winnerInv s) : winnerInv (step s op) := by
  cases op with
  | act t e a r =>
    intro hw
    rcases apply_action_winner s t e a r with hsame | ⟨hct, _, _⟩
    · exact apply_action_allDead _ _ _ _ _ _ (h (hsame ▸ hw))
    · have hw2 : ((apply_action s t e a r).2).winner = some Team.Terrorists := hw
      rw [hw2] at hct
      cases hct
  | reset =>
    intro hw
    cases hw
  | check =>
    intro hw
    show allDead (is_round_over s).2 Team.CounterTerrorists = true
    rw [is_round_over_allDead]
    unfold step is_round_over at hw
    dsimp only at hw
    split at hw
    · cases hw
    · split at hw
      · rename_i hCT
        exact hCT
      · split at hw
        · exact h hw
        · exact h hw

theorem run_winnerInv (ops : List Op) : winnerInv (run ops) := by
  have hgen : ∀ (l : List Op) (s : GameState), winnerInv s → winnerInv (l.foldl step s) := by
    intro l
    induction l with
    | nil => exact fun s h => h
    | cons op rest ih => exact fun s h => ih _ (step_winnerInv s op h)
  exact hgen ops GameState.init (fun hw => by cases hw)

/-- A reachable play where the Counter-Terrorists win by defusing, after
which the Terrorists shoot the whole Counter-Terrorist side dead. -/
def c3CexOps : List Op :=
  [Op.act Team.Terrorists Entity.player "plant bomb" ⟨mkRat 9 10, 0⟩,
   Op.act Team.CounterTerrorists Entity.player "defuse bomb" ⟨mkRat 9 10, 0⟩,
   Op.act Team.Terrorists Entity.player "shoot player" ⟨mkRat 9 10, 0⟩,
   Op.act Team.Terrorists Entity.player "shoot player" ⟨mkRat 9 10, 0⟩,
   Op.act Team.Terrorists Entity.player "shoot player" ⟨mkRat 9 10, 0⟩,
   Op.act Team.Terrorists Entity.player "shoot player" ⟨mkRat 9 10, 0⟩,
   Op.act Team.Terrorists Entity.player "shoot bot" ⟨mkRat 9 10, 0⟩,
   Op.act Team.Terrorists Entity.player "shoot bot" ⟨mkRat 9 10, 0⟩,
   Op.act Team.Terrorists Entity.player "shoot bot" ⟨mkRat 9 10, 0⟩,
   Op.act Team.Terrorists Entity.player "shoot bot" ⟨mkRat 9 10, 0⟩]

set_option maxRecDepth 10000 in
/-- C3 counterexample: in the reachable state after `c3CexOps` the winner is
the Counter-Terrorists (set by a successful defuse), yet one further
`is_round_over` call — still within the same round — overwrites the winner
with the Terrorists, because the Counter-Terrorist side has since been fully
eliminated. -/
theorem claims_C3_cex :
    (run c3CexOps).winner = some Team.CounterTerrorists ∧
    (run (c3CexOps ++ [Op.check])).winner = some Team.Terrorists := by
  decide

/-- C3 (amended): in every reachable state with the winner set, no
`apply_action` call changes the winner to a different team; `is_round_over`,
however, re-derives the winner from eliminations and keeps the recorded
winner only when neither side is fully dead — when a side is fully dead it
(re)assigns the opposing team of the first fully dead side. -/
theorem claims_C3_amended (ops : List Op) (w : Team) (h : (run ops).winner = some w) :
    (∀ (t : Team) (e : Entity) (a : String) (rng : Rng),
       ((apply_action (run ops) t e a rng).2).winner = some w) ∧
    ((is_round_over (run ops)).2.winner = some w ∨
      ∃ td, allDead (run ops) td = true ∧ (is_round_over (run ops)).2.winner = some td.other) := by
  constructor
  · intro t e a rng
    rcases apply_action_winner (run ops) t e a rng with hsame | ⟨hct, hteam, halive⟩
    · rw [hsame, h]
    · cases w with
      | CounterTerrorists => exact hct
      | Terrorists =>
        exfalso
        have hdead := run_winnerInv ops h
        rw [allDead, Bool.and_eq_true, decide_eq_true_eq, decide_eq_true_eq] at hdead
        subst hteam
        cases e
        · have := hdead.1
          omega
        · have := hdead.2
          omega
  · unfold is_round_over
    split
    · rename_i hT
      exact Or.inr ⟨Team.Terrorists, hT, rfl⟩
    · split
      · rename_i hCT
        exact Or.inr ⟨Team.CounterTerrorists, hCT, rfl⟩
      · split
        · exact Or.inl h
        · exact Or.inl h

/-- A reachable play reaching a state whose winner is set (by a defuse). -/
def c3WitnessOps : List Op :=
  [Op.act Team.Terrorists Entity.player "plant bomb" ⟨mkRat 9 10, 0⟩,
   Op.act Team.CounterTerrorists Entity.player "defuse bomb" ⟨mkRat 9 10, 0⟩]

/-- Witness for C3 (amended): with the winner set to the Counter-Terrorists,
a further `apply_action` leaves it on the Counter-Terrorists. -/
theorem claims_C3_witness :
    ((apply_action (run c3WitnessOps) Team.Terrorists Entity.player "shoot player" ⟨mkRat 9 10, 0⟩).2).winner
      = some Team.CounterTerrorists :=
  (claims_C3_amended c3WitnessOps Team.CounterTerrorists (by decide)).1
    Team.Terrorists Entity.player "shoot player" ⟨mkRat 9 10, 0⟩
